import Mathlib

set_option maxRecDepth 16000

/-!
Verification development for the Smart Expense Forecasting repository
(src/main.py and src/backend/forecast_model.py).

The core under analysis is the Monthly Aggregation & Metrics Engine:
`preprocess_data`, `calculate_comprehensive_metrics`, `forecast_expenses`
(two variants, one in each file), `calculate_seasonal_trends` and
`advanced_ml_analysis`.  The embedding below models pandas/numpy float
values exactly as extended rationals with a NaN element, dataframes as
lists of typed rows, and in-place dataframe mutation as explicit state
passing.
-/

namespace SmartExpense

/-- A pandas/numpy scalar: a finite value (modelled exactly as a rational),
one of the two infinities, or NaN.  numpy floating arithmetic with warnings
suppressed produces these values instead of raising, so the embedding must
carry them. -/
inductive PF where
  | nan : PF
  | pinf : PF
  | ninf : PF
  | fin : ℚ → PF
deriving DecidableEq, Repr

namespace PF

/-- IEEE negation. -/
def neg : PF → PF
  | nan => nan
  | pinf => ninf
  | ninf => pinf
  | fin q => fin (-q)

/-- IEEE addition (NaN absorbs; opposite infinities give NaN). -/
def add : PF → PF → PF
  | nan, _ => nan
  | _, nan => nan
  | pinf, ninf => nan
  | ninf, pinf => nan
  | pinf, _ => pinf
  | _, pinf => pinf
  | ninf, _ => ninf
  | _, ninf => ninf
  | fin a, fin b => fin (a + b)

/-- IEEE subtraction. -/
def sub (a b : PF) : PF := add a (neg b)

/-- IEEE multiplication (infinity times zero is NaN). -/
def mul : PF → PF → PF
  | nan, _ => nan
  | _, nan => nan
  | pinf, pinf => pinf
  | pinf, ninf => ninf
  | ninf, pinf => ninf
  | ninf, ninf => pinf
  | pinf, fin q => if 0 < q then pinf else if q < 0 then ninf else nan
  | fin q, pinf => if 0 < q then pinf else if q < 0 then ninf else nan
  | ninf, fin q => if 0 < q then ninf else if q < 0 then pinf else nan
  | fin q, ninf => if 0 < q then ninf else if q < 0 then pinf else nan
  | fin a, fin b => fin (a * b)

/-- IEEE division as numpy performs it with warnings suppressed:
finite/0 is a signed infinity (NaN for 0/0), infinity/infinity is NaN,
finite/infinity is 0. -/
def div : PF → PF → PF
  | nan, _ => nan
  | _, nan => nan
  | pinf, pinf => nan
  | pinf, ninf => nan
  | ninf, pinf => nan
  | ninf, ninf => nan
  | pinf, fin q => if 0 ≤ q then pinf else ninf
  | ninf, fin q => if 0 ≤ q then ninf else pinf
  | fin _, pinf => fin 0
  | fin _, ninf => fin 0
  | fin a, fin b =>
      if b = 0 then (if 0 < a then pinf else if a < 0 then ninf else nan)
      else fin (a / b)

/-- IEEE absolute value. -/
def pfAbs : PF → PF
  | nan => nan
  | pinf => pinf
  | ninf => pinf
  | fin q => fin |q|

/-- IEEE strict comparison: any comparison with NaN is false. -/
def lt : PF → PF → Bool
  | nan, _ => false
  | _, nan => false
  | ninf, ninf => false
  | ninf, _ => true
  | _, ninf => false
  | pinf, _ => false
  | fin _, pinf => true
  | fin a, fin b => decide (a < b)

/-- IEEE non-strict comparison: any comparison with NaN is false. -/
def le : PF → PF → Bool
  | nan, _ => false
  | _, nan => false
  | ninf, _ => true
  | _, ninf => false
  | _, pinf => true
  | pinf, _ => false
  | fin a, fin b => decide (a ≤ b)

/-- Python `min(a, x)` on two arguments: the second replaces the first
exactly when it compares strictly smaller, so `min(10, nan) = 10`. -/
def pymin (a x : PF) : PF := if lt x a then x else a

/-- Python `max(a, x)` on two arguments: the second replaces the first
exactly when it compares strictly greater, so `max(0, nan) = 0`. -/
def pymax (a x : PF) : PF := if lt a x then x else a

end PF

/-- Round a rational to the nearest integer, ties to even — the rounding
used by Python's built-in `round` and by numpy/pandas `round`. -/
def rhe (q : ℚ) : ℤ :=
  if q - ⌊q⌋ < 1/2 then ⌊q⌋
  else if 1/2 < q - ⌊q⌋ then ⌊q⌋ + 1
  else if ⌊q⌋ % 2 = 0 then ⌊q⌋ else ⌊q⌋ + 1

/-- Round a rational to `d` decimal places, ties to even. -/
def roundTo (d : ℕ) (q : ℚ) : ℚ := (rhe (q * 10 ^ d) : ℚ) / 10 ^ d

/-- `round` lifted to pandas scalars (NaN and infinities round to themselves). -/
def PF.roundPF (d : ℕ) : PF → PF
  | nan => nan
  | pinf => pinf
  | ninf => ninf
  | fin q => fin (roundTo d q)

/-- Square root on rationals, exact whenever the argument is the square of a
rational (numerator and denominator perfect squares) and the floor-based
`Nat.sqrt` approximation otherwise.  It stands in for the floating-point
square root inside the standard-deviation routines; every concrete
evaluation in this development falls in the exact case. -/
def ratSqrt (q : ℚ) : ℚ :=
  if q ≤ 0 then 0 else (Nat.sqrt q.num.toNat : ℚ) / (Nat.sqrt q.den : ℚ)

/-- Arithmetic mean of a list of rationals (callers guard non-emptiness,
as pandas `mean` is only reached on non-empty series here). -/
def qmean (l : List ℚ) : ℚ := l.sum / l.length

/-- Sum of squared deviations from the mean. -/
def ssd (l : List ℚ) : ℚ := (l.map (fun x => (x - qmean l) ^ 2)).sum

/-- pandas `Series.std()`: sample standard deviation with `ddof = 1`,
which is NaN on a series of fewer than two values. -/
def sampleStd (l : List ℚ) : PF :=
  if l.length < 2 then PF.nan
  else PF.fin (ratSqrt (ssd l / ((l.length : ℚ) - 1)))

/-- Minimum of a non-empty list of rationals (0 on the empty list, which
no caller reaches). -/
def qmin : List ℚ → ℚ
  | [] => 0
  | x :: xs => xs.foldl min x

/-- Maximum of a non-empty list of rationals (0 on the empty list, which
no caller reaches). -/
def qmax : List ℚ → ℚ
  | [] => 0
  | x :: xs => xs.foldl max x

/-- Index of the first occurrence of the maximum (pandas `idxmax` keeps the
first position on ties). -/
def argmaxAux (best : ℕ) (bv : ℚ) (i : ℕ) : List ℚ → ℕ
  | [] => best
  | y :: ys => if bv < y then argmaxAux i y (i + 1) ys else argmaxAux best bv (i + 1) ys

/-- pandas `idxmax` over positional indices. -/
def argmaxIdx : List ℚ → ℕ
  | [] => 0
  | x :: xs => argmaxAux 0 x 1 xs

/-- Index of the first occurrence of the minimum (pandas `idxmin`). -/
def argminAux (best : ℕ) (bv : ℚ) (i : ℕ) : List ℚ → ℕ
  | [] => best
  | y :: ys => if y < bv then argminAux i y (i + 1) ys else argminAux best bv (i + 1) ys

/-- pandas `idxmin` over positional indices. -/
def argminIdx : List ℚ → ℕ
  | [] => 0
  | x :: xs => argminAux 0 x 1 xs

/-! ## Data model

A transaction is one validated spreadsheet row (the ingestion layer has
already coerced `Date` and `Amount` and dropped invalid rows).  A calendar
date is kept as (year, month, day); `to_period('M')` keeps only the month
ordinal `year*12 + (month-1)`, exactly pandas' internal representation of a
monthly `Period`. -/

/-- One validated expense transaction row.  `head` is the optional
`Expense Head` free-text label (empty when the sheet has none); it plays
no part in the monthly aggregation. -/
structure Tx where
  year : ℕ
  month : ℕ
  day : ℕ
  amount : ℚ
  head : String := ""
deriving DecidableEq, Repr

/-- `df['Date'].dt.to_period('M')`: the month ordinal of a transaction's
date; the day of month is discarded. -/
def perKey (t : Tx) : ℕ := t.year * 12 + (t.month - 1)

/-- One row of the monthly aggregate table built by `preprocess_data`:
the `YearMonth` timestamp (kept as its month ordinal) and the six
aggregated `Amount` statistics, each rounded to 2 decimals by
`.agg({...}).round(2)`, plus the dense 1-based `Month_Num`. -/
structure Bucket where
  yearMonth : ℕ
  total : ℚ
  average : ℚ
  count : ℕ
  std : PF
  minAmt : ℚ
  maxAmt : ℚ
  monthNum : ℕ
deriving DecidableEq, Repr

/-- pandas `Series.pct_change()`: NaN in the first position, then the
relative change `x/prev - 1`, with numpy division semantics on a zero
previous value. -/
def pctChangeAux (prev : ℚ) : List ℚ → List PF
  | [] => []
  | x :: xs => PF.sub (PF.div (PF.fin x) (PF.fin prev)) (PF.fin 1) :: pctChangeAux x xs

/-- `Series.pct_change()` over a whole column. -/
def pctChange : List ℚ → List PF
  | [] => []
  | x :: xs => PF.nan :: pctChangeAux x xs

/-- The monthly aggregate dataframe: its bucket rows, the two growth
columns `YoY_Growth` / `MoM_Growth` (both `pct_change()*100`), and the
`Month` column that `calculate_seasonal_trends` later adds in place
(absent as produced by `preprocess_data`). -/
structure MonthlyDF where
  buckets : List Bucket
  yoy : List PF
  mom : List PF
  monthCol : Option (List ℕ)
deriving DecidableEq, Repr

/-- The distinct month ordinals of a transaction table, ascending — the
group keys of `df.groupby('YearMonth')` (pandas sorts group keys). -/
def monthKeys (df : List Tx) : List ℕ :=
  ((df.map perKey).dedup).insertionSort (· ≤ ·)

/-- The amounts of the transactions falling in month `k` — one
`groupby` group. -/
def groupAmounts (df : List Tx) (k : ℕ) : List ℚ :=
  (df.filter (fun t => perKey t = k)).map Tx.amount

/-- One aggregated row: the six `Amount` statistics of month `k`,
rounded to 2 decimals, with `Month_Num = idx`. -/
def mkBucket (df : List Tx) (k : ℕ) (idx : ℕ) : Bucket :=
  let a := groupAmounts df k
  { yearMonth := k
    total := roundTo 2 a.sum
    average := roundTo 2 (qmean a)
    count := a.length
    std := PF.roundPF 2 (sampleStd a)
    minAmt := roundTo 2 (qmin a)
    maxAmt := roundTo 2 (qmax a)
    monthNum := idx }

/-- `preprocess_data` (src/main.py lines 70–99): group by calendar month,
aggregate the `Amount` statistics rounded to 2 decimals, re-attach
`YearMonth` as a timestamp, number the rows densely from 1 in
`Month_Num`, and add the two `pct_change()*100` growth columns.  An empty
input produces an empty table. -/
def preprocess_data (df : List Tx) : MonthlyDF :=
  let ks := monthKeys df
  let buckets := List.zipWith (mkBucket df) ks (List.range' 1 ks.length)
  let totals := buckets.map Bucket.total
  { buckets := buckets
    yoy := (pctChange totals).map (fun g => PF.mul g (PF.fin 100))
    mom := (pctChange totals).map (fun g => PF.mul g (PF.fin 100))
    monthCol := none }

/-- pandas `Series.max()` over the month-ordinal column (ℕ keys). -/
def natMaxL (l : List ℕ) : ℕ := l.foldr max 0

/-- pandas `Series.min()` over the month-ordinal column. -/
def natMinL : List ℕ → ℕ
  | [] => 0
  | x :: xs => xs.foldl min x

/-- pandas `Series.mean()` with the default `skipna=True`: NaN entries are
dropped; the mean of an all-NaN series is NaN (0/0 here). -/
def pfMeanSkipNA (l : List PF) : PF :=
  let vals := l.filter (fun x => x != PF.nan)
  PF.div (vals.foldl PF.add (PF.fin 0)) (PF.fin vals.length)

/-- `.dt.month` of a first-of-month timestamp stored as a month ordinal. -/
def monthOfKey (k : ℕ) : ℕ := k % 12 + 1

/-- English month name for a calendar month number 1–12 (the `months`
lists/dicts of both seasonal-trend functions). -/
def monthName (n : ℕ) : String :=
  (["January", "February", "March", "April", "May", "June",
    "July", "August", "September", "October", "November", "December"]).getD (n - 1) ""

/-! ## Metrics Calculator -/

/-- The dictionary returned by `calculate_comprehensive_metrics`
(src/main.py lines 148–166).  Month labels (`strftime('%B %Y')`) are kept
as the underlying month ordinal. -/
structure Metrics where
  totalSpent : ℚ
  avgMonthly : ℚ
  highestMonthAmount : ℚ
  highestMonthName : ℕ
  highestMonthPercentage : PF
  lowestMonthAmount : ℚ
  lowestMonthName : ℕ
  growthRate : PF
  variance : PF
  efficiencyScore : PF
  trendIcon : String
  trendDescription : String
  efficiencyComment : String
  transactionCount : ℕ
  periodStart : ℕ
  periodEnd : ℕ
  analysisPeriod : ℕ
deriving DecidableEq, Repr

/-- `calculate_comprehensive_metrics` (src/main.py lines 101–166).  The
`category` argument of the source is unused in the body and omitted here.
Returns `none` for an empty monthly table (the source returns `{}`). -/
def calculate_comprehensive_metrics (m : MonthlyDF) (df : List Tx) : Option Metrics :=
  if m.buckets.isEmpty then none
  else
    let ts := m.buckets.map Bucket.total
    let ks := m.buckets.map Bucket.yearMonth
    let totalSpent := ts.sum
    let hiIdx := argmaxIdx ts
    let loIdx := argminIdx ts
    let growthRate : PF :=
      if 1 < m.buckets.length then
        PF.mul (PF.div (PF.fin (ts.getLastD 0 - ts.headI)) (PF.fin ts.headI)) (PF.fin 100)
      else PF.fin 0
    let variance : PF :=
      if 0 < qmean ts then PF.div (sampleStd ts) (PF.fin (qmean ts)) else PF.fin 0
    let effRaw : PF :=
      PF.pymax (PF.fin 0) (PF.pymin (PF.fin 10)
        (PF.sub (PF.sub (PF.fin 10) (PF.mul variance (PF.fin 5)))
          (PF.div (PF.pfAbs growthRate) (PF.fin 10))))
    some
      { totalSpent := totalSpent
        avgMonthly := qmean ts
        highestMonthAmount := ts.getD hiIdx 0
        highestMonthName := ks.getD hiIdx 0
        highestMonthPercentage :=
          PF.mul (PF.div (PF.fin (ts.getD hiIdx 0)) (PF.fin totalSpent)) (PF.fin 100)
        lowestMonthAmount := ts.getD loIdx 0
        lowestMonthName := ks.getD loIdx 0
        growthRate := growthRate
        variance := variance
        efficiencyScore := PF.roundPF 1 effRaw
        trendIcon :=
          if PF.lt (PF.fin 5) growthRate then "📈"
          else if PF.lt (PF.fin 0) growthRate then "↗️"
          else if PF.lt (PF.fin (-5)) growthRate then "➡️"
          else "📉"
        trendDescription :=
          if PF.lt (PF.fin 5) growthRate then "Strong growth trend observed"
          else if PF.lt (PF.fin 0) growthRate then "Moderate growth trend"
          else if PF.lt (PF.fin (-5)) growthRate then "Stable spending pattern"
          else "Declining trend detected"
        efficiencyComment :=
          if PF.le (PF.fin 8) effRaw then "Excellent spending control"
          else if PF.le (PF.fin 6) effRaw then "Good expense management"
          else if PF.le (PF.fin 4) effRaw then "Moderate efficiency, room for improvement"
          else "Needs optimization attention"
        transactionCount := df.length
        periodStart := natMinL ks
        periodEnd := natMaxL ks
        analysisPeriod := m.buckets.length }

/-! ## Forecast Engine

Both forecast functions fit a least-squares line of `Total_Amount` against
the 0-based row position `X = 0, …, n-1`.  `src/main.py` does so through
`sklearn.LinearRegression`, whose fitted coefficients on one regressor are
the closed-form ordinary-least-squares slope and intercept (the normal
equations have a unique solution because the x-values 0, …, n-1 are
distinct for n ≥ 2); `src/backend/forecast_model.py` writes the same
closed form out by hand, with an explicit `denominator == 0` guard. -/

/-- The regressor column `np.array(range(n))`. -/
def olsXs (n : ℕ) : List ℚ := (List.range n).map (fun i => (i : ℚ))

/-- `Σ (x - x̄)(y - ȳ)` over `x = 0, …, n-1`. -/
def olsNum (ys : List ℚ) : ℚ :=
  let xs := olsXs ys.length
  (((xs.zip ys)).map (fun p => (p.1 - qmean xs) * (p.2 - qmean ys))).sum

/-- `Σ (x - x̄)²` over `x = 0, …, n-1`. -/
def olsDen (ys : List ℚ) : ℚ :=
  let xs := olsXs ys.length
  (xs.map (fun x => (x - qmean xs) ^ 2)).sum

/-- Slope fitted by `sklearn.LinearRegression` on `x = 0, …, n-1`:
the closed-form OLS slope (the denominator is positive whenever the
function reaches the fit, i.e. for n ≥ 2). -/
def lrSlope (ys : List ℚ) : ℚ := olsNum ys / olsDen ys

/-- Intercept fitted by `sklearn.LinearRegression`. -/
def lrIntercept (ys : List ℚ) : ℚ := qmean ys - lrSlope ys * qmean (olsXs ys.length)

/-- `forecast_expenses` (src/main.py lines 168–203): fewer than 2 rows →
empty result; otherwise fit the line, predict at `x = n, …, n+periods-1`,
clip at 0, round to 2 decimals.  Future month labels are
`monthly_df['YearMonth'].max()` advanced by 1, …, periods calendar
months; the result is the list of (future month ordinal, forecast). -/
def forecast_expenses (m : MonthlyDF) (periods : ℕ) : List (ℕ × ℚ) :=
  if m.buckets.length < 2 then []
  else
    let ys := m.buckets.map Bucket.total
    let n := m.buckets.length
    let lastKey := natMaxL (m.buckets.map Bucket.yearMonth)
    (List.range periods).map (fun i =>
      (lastKey + (i + 1), roundTo 2 (max 0 (lrSlope ys * ((n : ℚ) + i) + lrIntercept ys))))

namespace ForecastModel

/-- `forecast_expenses` (src/backend/forecast_model.py lines 6–54): fewer
than 3 rows → empty result; otherwise the hand-written closed-form OLS
fit (slope 0 when the denominator is 0), predictions at
`x = n, …, n+periods-1` floored at 0 via `np.maximum` and rounded to 2
decimals.  Future labels are `pd.date_range` month ends starting the
month after `monthly_data['YearMonth'].iloc[-1]`; month granularity keeps
their month ordinals, which advance by 1 per step. -/
def forecast_expenses (m : MonthlyDF) (periods : ℕ) : List (ℕ × ℚ) :=
  if m.buckets.length < 3 then []
  else
    let ys := m.buckets.map Bucket.total
    let n := m.buckets.length
    let slope := if olsDen ys = 0 then 0 else olsNum ys / olsDen ys
    let intercept := qmean ys - slope * qmean (olsXs ys.length)
    let lastKey := (m.buckets.map Bucket.yearMonth).getLastD 0
    (List.range periods).map (fun i =>
      (lastKey + (i + 1), roundTo 2 (max 0 (slope * ((n : ℚ) + i) + intercept))))

end ForecastModel

/-! ## Narrative / Insight Generator

`calculate_seasonal_trends` (both variants) assigns
`monthly_df['Month'] = monthly_df['YearMonth'].dt.month` on its input
dataframe — an in-place mutation visible to the caller.  The embedding
passes the dataframe state explicitly: each function returns its message
together with the dataframe as it is after the call.  The interpolated
numeric values inside the source's f-strings are presentation formatting
and are elided from the message constants; the branch structure selecting
each message is kept. -/

/-- The mean `Total_Amount` per calendar month-of-year: the
`groupby('Month')['Total_Amount'].mean()` series, as the ascending list
of distinct months paired with their means. -/
def seasonalGroups (bs : List Bucket) : List ℕ × List ℚ :=
  let mons := bs.map (fun b => monthOfKey b.yearMonth)
  let distinctMs := (mons.dedup).insertionSort (· ≤ ·)
  (distinctMs, distinctMs.map (fun mo =>
    qmean ((bs.filter (fun b => monthOfKey b.yearMonth = mo)).map Bucket.total)))

/-- `calculate_seasonal_trends` (src/main.py lines 205–227).  Fewer than 6
rows → early return, input untouched.  Otherwise the `Month` column is
assigned in place, then the per-calendar-month means pick the peak and
low months (`idxmax`/`idxmin`).  The `except` branch is unreachable in
the model (every step is total). -/
def calculate_seasonal_trends (m : MonthlyDF) : String × MonthlyDF :=
  if m.buckets.length < 6 then ("Insufficient data for seasonal analysis", m)
  else
    let m' := { m with monthCol := some (m.buckets.map (fun b => monthOfKey b.yearMonth)) }
    let g := seasonalGroups m.buckets
    if 3 ≤ g.1.length then
      let peak := g.1.getD (argmaxIdx g.2) 0
      let low := g.1.getD (argminIdx g.2) 0
      ("Peak in " ++ monthName peak ++ ", Lowest in " ++ monthName low, m')
    else
      ("Limited seasonal pattern detected", m')

namespace ForecastModel

/-- `calculate_seasonal_trends` (src/backend/forecast_model.py lines
56–80): same shape as the main-file variant — early return below 6 rows,
otherwise the in-place `Month` column assignment followed by the
per-calendar-month group means. -/
def calculate_seasonal_trends (m : MonthlyDF) : String × MonthlyDF :=
  if m.buckets.length < 6 then
    ("📊 We're still learning your patterns. As we get more months of data, we'll spot your seasonal spending habits.", m)
  else
    let m' := { m with monthCol := some (m.buckets.map (fun b => monthOfKey b.yearMonth)) }
    let g := seasonalGroups m.buckets
    if 3 ≤ g.1.length then
      let peak := g.1.getD (argmaxIdx g.2) 0
      let low := g.1.getD (argminIdx g.2) 0
      ("🎯 We noticed you tend to spend most in " ++ monthName peak ++ " and least in "
        ++ monthName low ++ ". Plan your budget around these patterns!", m')
    else
      ("📈 Keep tracking your expenses - we're starting to see some monthly patterns emerge.", m')

end ForecastModel

/-- The `insights` dictionary built by `advanced_ml_analysis`; a key the
source never assigns is `none`. -/
structure Insights where
  patterns : Option String
  optimization : Option String
  forecasting : Option String
  risk : Option String
deriving DecidableEq, Repr

/-- `df.groupby('Expense Head')['Amount'].sum()` when the column exists:
ascending distinct labels paired with their summed amounts.  The model
keeps the label column on `Tx` as `head`; whether the source dataframe
has the column at all is the `hasHead` flag of the caller. -/
def headSums (df : List Tx) : List String × List ℚ :=
  let labels := ((df.map Tx.head).dedup).insertionSort (· ≤ ·)
  (labels, labels.map (fun h => ((df.filter (fun t => t.head = h)).map Tx.amount).sum))

/-- `advanced_ml_analysis` (src/main.py lines 229–278): reads
`monthly_df` and `df`, assigns only to its local `insights` dictionary
and never writes to `monthly_df`; the dataframe state is returned
unchanged alongside the insights.  `hasHead` models
`'Expense Head' in df.columns`. -/
def advanced_ml_analysis (m : MonthlyDF) (df : List Tx) (hasHead : Bool) :
    Insights × MonthlyDF :=
  let ts := m.buckets.map Bucket.total
  let patterns : Option String :=
    if 3 ≤ m.buckets.length then
      let volatility := PF.div (sampleStd ts) (PF.fin (qmean ts))
      if PF.lt volatility (PF.fin (2/10)) then
        some "✅ Stable spending patterns with low volatility. Excellent budget predictability."
      else if PF.lt volatility (PF.fin (4/10)) then
        some "📊 Moderate spending variability. Consider implementing monthly budget controls."
      else
        some "⚠️ High spending volatility detected. Immediate budget optimization recommended."
    else none
  let optimization : Option String :=
    if hasHead then
      let g := headSums df
      if 0 < g.1.length then
        some ("🎯 Focus optimization efforts on '" ++ g.1.getD (argmaxIdx g.2) ""
          ++ "' - your highest spending category.")
      else none
    else none
  let forecasting : Option String :=
    if 4 ≤ m.buckets.length then
      let growthTrend := PF.mul (pfMeanSkipNA (pctChange ts)) (PF.fin 100)
      if PF.lt (PF.fin 5) growthTrend then
        some "📈 Strong upward trend. Plan for increasing budgets."
      else if PF.lt (PF.fin 0) growthTrend then
        some "↗️ Moderate growth trend. Maintain current planning approach."
      else
        some "📉 Declining trend. Opportunity for cost optimization."
    else none
  let risk : Option String :=
    let efficiency :=
      PF.sub (PF.fin 10) (PF.mul (PF.div (sampleStd ts) (PF.fin (qmean ts))) (PF.fin 5))
    if PF.le (PF.fin 8) efficiency then
      some "🛡️ Low financial risk. Strong expense management practices."
    else if PF.le (PF.fin 6) efficiency then
      some "⚠️ Moderate risk. Implement additional monitoring controls."
    else
      some "🚨 High risk detected. Immediate strategic review required."
  ({ patterns := patterns, optimization := optimization,
     forecasting := forecasting, risk := risk }, m)

/-! ## Specification-side definitions and concrete tables -/

/-- The efficiency-score formula exactly as the specification states it:
`clamp(0, 10, 10 - variance*5 - abs(growth_rate)/10)`, with the clamp
realised by Python's two-argument `max`/`min` as in the source. -/
def clampScore (v g : PF) : PF :=
  PF.pymax (PF.fin 0) (PF.pymin (PF.fin 10)
    (PF.sub (PF.sub (PF.fin 10) (PF.mul v (PF.fin 5)))
      (PF.div (PF.pfAbs g) (PF.fin 10))))

/-- Sum of `Total_Amount` over all buckets of a monthly table. -/
def totalSum (m : MonthlyDF) : ℚ := (m.buckets.map Bucket.total).sum

/-- Sum of `Amount` over all transactions of a table. -/
def txSum (df : List Tx) : ℚ := (df.map Tx.amount).sum

/-- `q` is a whole number of cents: rounding to 2 decimals cannot move it. -/
def isCent (q : ℚ) : Prop := (q * 100).den = 1

instance (q : ℚ) : Decidable (isCent q) := by unfold isCent; infer_instance

/-- A single January-2024 transaction of 500 (the specification's
Scenario B input). -/
def dfSingle : List Tx := [⟨2024, 1, 10, 500, ""⟩]

/-- Two months of history (Jan/Feb 2024). -/
def dfTwoMonths : List Tx := [⟨2024, 1, 5, 100, ""⟩, ⟨2024, 2, 5, 200, ""⟩]

/-- Four months with totals 100, 200, 300, 400 — the specification's
Scenario C perfect linear trend. -/
def dfLinear : List Tx :=
  [⟨2024, 1, 5, 100, ""⟩, ⟨2024, 2, 5, 200, ""⟩, ⟨2024, 3, 5, 300, ""⟩, ⟨2024, 4, 5, 400, ""⟩]

/-- The specification's Scenario A: Jan 1000, Feb 1200, Mar 900. -/
def dfScenarioA : List Tx :=
  [⟨2024, 1, 5, 1000, ""⟩, ⟨2024, 2, 5, 1200, ""⟩, ⟨2024, 3, 5, 900, ""⟩]

/-- Three months with totals 1000, 1001, 1002: the raw efficiency score is
strictly between 9.9 and 10, so rounding to 1 decimal moves it. -/
def dfNearTen : List Tx :=
  [⟨2024, 1, 5, 1000, ""⟩, ⟨2024, 2, 5, 1001, ""⟩, ⟨2024, 3, 5, 1002, ""⟩]

/-- Six months of history (enough for the seasonal-trend path). -/
def dfSixMonths : List Tx :=
  [⟨2024, 1, 5, 100, ""⟩, ⟨2024, 2, 5, 200, ""⟩, ⟨2024, 3, 5, 300, ""⟩,
   ⟨2024, 4, 5, 100, ""⟩, ⟨2024, 5, 5, 200, ""⟩, ⟨2024, 6, 5, 300, ""⟩]

/-- One transaction of 1/8 = 0.125: its monthly total rounds to 0.12. -/
def dfEighth : List Tx := [⟨2024, 1, 15, 1/8, ""⟩]

/-- The metrics snapshot the calculator produces for `dfSingle` (a single
January 2024 bucket of 500): growth 0, variance NaN, efficiency 10. -/
def mSingle : Metrics :=
  { totalSpent := 500
    avgMonthly := 500
    highestMonthAmount := 500
    highestMonthName := 24288
    highestMonthPercentage := PF.fin 100
    lowestMonthAmount := 500
    lowestMonthName := 24288
    growthRate := PF.fin 0
    variance := PF.nan
    efficiencyScore := PF.fin 10
    trendIcon := "➡️"
    trendDescription := "Stable spending pattern"
    efficiencyComment := "Excellent spending control"
    transactionCount := 1
    periodStart := 24288
    periodEnd := 24288
    analysisPeriod := 1 }

/-! ## Theorems -/

/-- Ties-to-even rounding of a non-negative rational is non-negative. -/
lemma rhe_nonneg {q : ℚ} (h : 0 ≤ q) : 0 ≤ rhe q := by
  unfold rhe
  have hf : (0 : ℤ) ≤ ⌊q⌋ := Int.floor_nonneg.mpr h
  split_ifs <;> omega

/-- Rounding to `d` decimals preserves non-negativity. -/
lemma roundTo_nonneg (d : ℕ) {q : ℚ} (h : 0 ≤ q) : 0 ≤ roundTo d q := by
  unfold roundTo
  have h1 : (0 : ℤ) ≤ rhe (q * 10 ^ d) := rhe_nonneg (by positivity)
  have h2 : (0 : ℚ) ≤ (rhe (q * 10 ^ d) : ℚ) := by exact_mod_cast h1
  positivity

/-- Ties-to-even rounding never rounds above an integer upper bound. -/
lemma rhe_le_of_le {q : ℚ} {z : ℤ} (h : q ≤ z) : rhe q ≤ z := by
  unfold rhe
  have hf : ⌊q⌋ ≤ z := by
    have h2 : ⌊q⌋ ≤ ⌊(z : ℚ)⌋ := Int.floor_le_floor h
    simpa using h2
  have hq : ¬ q - ⌊q⌋ < 1/2 → ⌊q⌋ < z := by
    intro h1
    have hlt : (⌊q⌋ : ℚ) < q := by linarith
    have hlt2 : (⌊q⌋ : ℚ) < (z : ℚ) := lt_of_lt_of_le hlt h
    exact_mod_cast hlt2
  split_ifs with h1 h2 h3
  · exact hf
  · have := hq h1; omega
  · exact hf
  · have := hq h1; omega

/-- Ties-to-even rounding never rounds below an integer lower bound. -/
lemma le_rhe_of_le {z : ℤ} {q : ℚ} (h : (z : ℚ) ≤ q) : z ≤ rhe q := by
  unfold rhe
  have hf : z ≤ ⌊q⌋ := Int.le_floor.mpr h
  split_ifs <;> omega

/-- Projecting a field that depends only on the key out of the zipped
bucket rows recovers the key column. -/
lemma zipWith_mkBucket_map {γ : Type} (df : List Tx) (g : Bucket → γ) (F : ℕ → γ)
    (hg : ∀ k i, g (mkBucket df k i) = F k) :
    ∀ (ks is : List ℕ), ks.length = is.length →
      (List.zipWith (mkBucket df) ks is).map g = ks.map F := by
  intro ks
  induction ks with
  | nil => intro is h; simp
  | cons k ks ih =>
    intro is h
    cases is with
    | nil => simp at h
    | cons i is =>
      simp only [List.zipWith_cons_cons, List.map_cons, hg]
      rw [ih is (by simpa using h)]

/-- Projecting `Month_Num` out of the zipped bucket rows recovers the
index column. -/
lemma zipWith_mkBucket_monthNum (df : List Tx) :
    ∀ (ks is : List ℕ), ks.length = is.length →
      (List.zipWith (mkBucket df) ks is).map Bucket.monthNum = is := by
  intro ks
  induction ks with
  | nil =>
    intro is h
    cases is with
    | nil => simp
    | cons i is => simp at h
  | cons k ks ih =>
    intro is h
    cases is with
    | nil => simp at h
    | cons i is =>
      simp only [List.zipWith_cons_cons, List.map_cons, mkBucket]
      rw [ih is (by simpa using h)]

/-- The sorted distinct month keys: sorted non-strictly, without
duplicates, and a permutation of the distinct keys. -/
lemma monthKeys_sorted_nodup (df : List Tx) :
    (monthKeys df).Sorted (· ≤ ·) ∧ (monthKeys df).Nodup ∧
      (monthKeys df).length = ((df.map perKey).dedup).length := by
  refine ⟨List.sorted_insertionSort _ _, ?_, ?_⟩
  · exact (List.perm_insertionSort _ _).nodup_iff.mpr (List.nodup_dedup _)
  · exact (List.perm_insertionSort _ _).length_eq

/-- C7: the Aggregator's bucket sequence is strictly increasing in the
calendar-month ordinal (hence no duplicate months), its `Month_Num` column
is exactly 1, …, N, and N is the number of distinct active months. -/
theorem buckets_sorted_dense (df : List Tx) :
    ((preprocess_data df).buckets.map Bucket.yearMonth).Sorted (· < ·) ∧
    (preprocess_data df).buckets.map Bucket.monthNum
      = List.range' 1 ((df.map perKey).dedup).length ∧
    (preprocess_data df).buckets.length = ((df.map perKey).dedup).length := by
  obtain ⟨hs, hn, hl⟩ := monthKeys_sorted_nodup df
  have hlen : (monthKeys df).length = (List.range' 1 (monthKeys df).length).length := by
    simp
  have hym : (preprocess_data df).buckets.map Bucket.yearMonth = monthKeys df := by
    show (List.zipWith (mkBucket df) (monthKeys df)
        (List.range' 1 (monthKeys df).length)).map Bucket.yearMonth = monthKeys df
    rw [zipWith_mkBucket_map df Bucket.yearMonth id (fun k i => rfl) _ _ hlen]
    simp
  refine ⟨?_, ?_, ?_⟩
  · rw [hym]; exact hs.lt_of_le hn
  · show (List.zipWith (mkBucket df) (monthKeys df)
        (List.range' 1 (monthKeys df).length)).map Bucket.monthNum
      = List.range' 1 ((df.map perKey).dedup).length
    rw [zipWith_mkBucket_monthNum df _ _ hlen, hl]
  · show (List.zipWith (mkBucket df) (monthKeys df)
        (List.range' 1 (monthKeys df).length)).length
      = ((df.map perKey).dedup).length
    simp [hl]

/-- C2: for a monthly series of exactly one bucket with positive total, the
Metrics Calculator's `variance` is NaN, not the claimed 0: the pandas
sample standard deviation of a single value is NaN, the `mean() > 0` guard
passes, and NaN/mean is NaN.  (The specification defines this case as 0.) -/
theorem variance_single_bucket_nan :
    (calculate_comprehensive_metrics (preprocess_data dfSingle) dfSingle).map
      Metrics.variance = some PF.nan := by
  with_unfolding_all decide

/-- C6: on the Scenario C series (totals 100, 200, 300, 400 at positions
0–3) the closed-form OLS fit used by both forecast functions yields slope
100 and intercept 100, and both forecast functions predict [500, 600] for
`periods = 2` by evaluating the line at the continuation indices 4 and 5. -/
theorem ols_linear_scenario :
    lrSlope ((preprocess_data dfLinear).buckets.map Bucket.total) = 100 ∧
    lrIntercept ((preprocess_data dfLinear).buckets.map Bucket.total) = 100 ∧
    (forecast_expenses (preprocess_data dfLinear) 2).map Prod.snd = [500, 600] ∧
    (ForecastModel.forecast_expenses (preprocess_data dfLinear) 2).map Prod.snd
      = [500, 600] := by
  with_unfolding_all decide

/-- C1 (amended): `src/main.py`'s `forecast_expenses` returns exactly
`periods` entries once the series has at least 2 buckets and an empty
series below 2; the `src/backend/forecast_model.py` variant uses the
stricter threshold 3, returning an empty series for a 2-bucket history as
well. -/
theorem forecast_length_thresholds (m : MonthlyDF) (periods : ℕ) (_hp : 0 < periods) :
    (2 ≤ m.buckets.length → (forecast_expenses m periods).length = periods) ∧
    (m.buckets.length < 2 → forecast_expenses m periods = []) ∧
    (3 ≤ m.buckets.length → (ForecastModel.forecast_expenses m periods).length = periods) ∧
    (m.buckets.length < 3 → ForecastModel.forecast_expenses m periods = []) := by
  refine ⟨fun h => ?_, fun h => ?_, fun h => ?_, fun h => ?_⟩
  · simp only [forecast_expenses]; rw [if_neg (by omega)]; simp
  · simp only [forecast_expenses]; rw [if_pos (by omega)]
  · simp only [ForecastModel.forecast_expenses]; rw [if_neg (by omega)]; simp
  · simp only [ForecastModel.forecast_expenses]; rw [if_pos (by omega)]

/-- C1 witness: a 4-bucket history forecast 4 periods ahead yields 4
entries from both implementations. -/
theorem forecast_length_thresholds_witness :
    (forecast_expenses (preprocess_data dfLinear) 4).length = 4 ∧
    (ForecastModel.forecast_expenses (preprocess_data dfLinear) 4).length = 4 := by
  have h := forecast_length_thresholds (preprocess_data dfLinear) 4 (by norm_num)
  exact ⟨h.1 (by with_unfolding_all decide), h.2.2.1 (by with_unfolding_all decide)⟩

/-- C1 counterexample: a 2-bucket history refutes the claim for the
backend implementation — it returns an empty series where the claim
demands one of length `periods = 6`. -/
theorem forecast_length_two_bucket_cex :
    (preprocess_data dfTwoMonths).buckets.length = 2 ∧
    ForecastModel.forecast_expenses (preprocess_data dfTwoMonths) 6 = [] := by
  with_unfolding_all decide

/-- C5: with at least 2 buckets and a positive horizon, every predicted
value of both forecast functions is non-negative (each prediction is
clipped at 0 and then rounded, and rounding preserves non-negativity). -/
theorem forecast_nonneg (m : MonthlyDF) (periods : ℕ)
    (h2 : 2 ≤ m.buckets.length) (_hp : 0 < periods) :
    (∀ pr ∈ forecast_expenses m periods, 0 ≤ pr.2) ∧
    (∀ pr ∈ ForecastModel.forecast_expenses m periods, 0 ≤ pr.2) := by
  constructor
  · intro pr hpr
    simp only [forecast_expenses] at hpr
    rw [if_neg (by omega)] at hpr
    simp only [List.mem_map] at hpr
    obtain ⟨i, _, rfl⟩ := hpr
    exact roundTo_nonneg 2 (le_max_left 0 _)
  · intro pr hpr
    simp only [ForecastModel.forecast_expenses] at hpr
    by_cases h3 : m.buckets.length < 3
    · rw [if_pos h3] at hpr; simp at hpr
    · rw [if_neg h3] at hpr
      simp only [List.mem_map] at hpr
      obtain ⟨i, _, rfl⟩ := hpr
      exact roundTo_nonneg 2 (le_max_left 0 _)

/-- C5 witness: the first forecast entry of the Scenario C run is
non-negative. -/
theorem forecast_nonneg_witness :
    0 ≤ ((forecast_expenses (preprocess_data dfLinear) 2).getD 0 (0, 0)).2 := by
  have h := (forecast_nonneg (preprocess_data dfLinear) 2
    (by with_unfolding_all decide) (by norm_num)).1
  exact h _ (by with_unfolding_all decide)

/-- On a non-strictly sorted key column, the pandas `max()` of the column
(`foldr max 0`) is its last entry. -/
lemma natMaxL_eq_getLastD : ∀ {l : List ℕ}, l.Sorted (· ≤ ·) → natMaxL l = l.getLastD 0 := by
  intro l
  induction l with
  | nil => intro _; rfl
  | cons x xs ih =>
    intro h
    cases xs with
    | nil => simp [natMaxL]
    | cons y ys =>
      have hx : ∀ b ∈ y :: ys, x ≤ b := (List.sorted_cons.mp h).1
      have hih := ih (List.sorted_cons.mp h).2
      show max x (natMaxL (y :: ys)) = (x :: y :: ys).getLastD 0
      rw [hih]
      simp only [List.getLastD_cons]
      exact max_eq_right (hx _ (List.getLastD_mem_cons ys y))

/-- The backend's guarded slope (`slope = 0` when the denominator is 0)
coincides with the closed-form slope, since rational division by zero is
zero. -/
lemma slope_guard_eq (ys : List ℚ) :
    (if olsDen ys = 0 then 0 else olsNum ys / olsDen ys) = lrSlope ys := by
  unfold lrSlope
  split_ifs with h
  · rw [h, div_zero]
  · rfl

/-- C10 (amended): on a chronologically sorted monthly table the two
forecast implementations agree whenever the bucket count is not exactly 2
(that is, when both guards pass or both fail); at exactly 2 buckets the
main implementation produces `periods` entries while the backend returns
an empty series. -/
theorem forecast_impls_agree (m : MonthlyDF) (periods : ℕ)
    (hs : (m.buckets.map Bucket.yearMonth).Sorted (· ≤ ·))
    (hne : m.buckets.length ≠ 2) :
    forecast_expenses m periods = ForecastModel.forecast_expenses m periods := by
  by_cases h3 : m.buckets.length < 3
  · simp only [forecast_expenses, ForecastModel.forecast_expenses]
    rw [if_pos (by omega), if_pos h3]
  · simp only [forecast_expenses, ForecastModel.forecast_expenses]
    rw [if_neg (by omega), if_neg h3]
    have hmax : natMaxL (m.buckets.map Bucket.yearMonth)
        = (m.buckets.map Bucket.yearMonth).getLastD 0 := natMaxL_eq_getLastD hs
    simp only [hmax, slope_guard_eq, lrIntercept]

/-- C10 witness: both implementations produce the same 3-period forecast
for the Scenario C series. -/
theorem forecast_impls_agree_witness :
    forecast_expenses (preprocess_data dfLinear) 3 =
      ForecastModel.forecast_expenses (preprocess_data dfLinear) 3 := by
  exact forecast_impls_agree (preprocess_data dfLinear) 3
    (by with_unfolding_all decide) (by with_unfolding_all decide)

/-- C10 counterexample: at exactly 2 buckets the two implementations
disagree — main returns one entry for `periods = 1`, backend none. -/
theorem forecast_impls_differ_cex :
    forecast_expenses (preprocess_data dfTwoMonths) 1 ≠
      ForecastModel.forecast_expenses (preprocess_data dfTwoMonths) 1 := by
  with_unfolding_all decide

/-- Python's `max(0, min(10, x))` always produces a finite value in
[0, 10], whatever `x` is — including NaN and the infinities, by the
comparison-is-false semantics of NaN. -/
lemma clamp_bounds (x : PF) :
    ∃ q : ℚ, PF.pymax (PF.fin 0) (PF.pymin (PF.fin 10) x) = PF.fin q ∧ 0 ≤ q ∧ q ≤ 10 := by
  cases x with
  | nan => exact ⟨10, by with_unfolding_all decide, by norm_num, by norm_num⟩
  | pinf => exact ⟨10, by with_unfolding_all decide, by norm_num, by norm_num⟩
  | ninf => exact ⟨0, by with_unfolding_all decide, by norm_num, by norm_num⟩
  | fin q =>
    by_cases h10 : q < 10
    · by_cases h0 : 0 < q
      · refine ⟨q, ?_, le_of_lt h0, le_of_lt h10⟩
        simp only [PF.pymin, PF.lt]
        rw [if_pos (by simpa using h10)]
        simp only [PF.pymax, PF.lt]
        rw [if_pos (by simpa using h0)]
      · refine ⟨0, ?_, le_refl 0, by norm_num⟩
        simp only [PF.pymin, PF.lt]
        rw [if_pos (by simpa using h10)]
        simp only [PF.pymax, PF.lt]
        rw [if_neg (by simpa using h0)]
    · refine ⟨10, ?_, by norm_num, le_refl 10⟩
      simp only [PF.pymin, PF.lt]
      rw [if_neg (by simpa using h10)]
      simp only [PF.pymax, PF.lt]
      rw [if_pos (by norm_num)]

/-- Rounding to 1 decimal keeps a value inside [0, 10]. -/
lemma roundTo1_bounds {q : ℚ} (h0 : 0 ≤ q) (h10 : q ≤ 10) :
    0 ≤ roundTo 1 q ∧ roundTo 1 q ≤ 10 := by
  refine ⟨roundTo_nonneg 1 h0, ?_⟩
  unfold roundTo
  have h2 : rhe (q * 10 ^ 1) ≤ (100 : ℤ) := rhe_le_of_le (by push_cast; nlinarith)
  have h3 : ((rhe (q * 10 ^ 1) : ℚ)) ≤ 100 := by exact_mod_cast h2
  rw [div_le_iff₀ (by positivity)]
  norm_num at h3 ⊢
  linarith

/-- The whole clamped-and-rounded efficiency pipeline lands in [0, 10]. -/
lemma roundclamp_bounds (x : PF) :
    ∃ q : ℚ, PF.roundPF 1 (PF.pymax (PF.fin 0) (PF.pymin (PF.fin 10) x)) = PF.fin q ∧
      0 ≤ q ∧ q ≤ 10 := by
  obtain ⟨q, hq, h0, h10⟩ := clamp_bounds x
  rw [hq]
  obtain ⟨hr0, hr10⟩ := roundTo1_bounds h0 h10
  exact ⟨roundTo 1 q, rfl, hr0, hr10⟩

/-- C3 (amended): the Metrics Calculator returns
`efficiency_score = round(clamp(0, 10, 10 - variance*5 - |growth_rate|/10), 1)`
— the claim's clamp composite, but rounded to 1 decimal by the final
`round(efficiency_score, 1)` — and every efficiency score it produces is a
finite value in [0, 10]. -/
theorem efficiency_rounded_clamp_bounds (m : MonthlyDF) (df : List Tx) (ms : Metrics)
    (h : calculate_comprehensive_metrics m df = some ms) :
    ms.efficiencyScore = PF.roundPF 1 (clampScore ms.variance ms.growthRate) ∧
    ∃ q : ℚ, ms.efficiencyScore = PF.fin q ∧ 0 ≤ q ∧ q ≤ 10 := by
  simp only [calculate_comprehensive_metrics] at h
  cases hb : m.buckets.isEmpty with
  | true => rw [if_pos hb] at h; exact absurd h (by simp)
  | false =>
    rw [if_neg (by simp [hb])] at h
    obtain rfl := Option.some_inj.mp h
    exact ⟨rfl, roundclamp_bounds _⟩

/-- C3 witness: the snapshot computed for the single-bucket table
instantiates the amended claim (its score is 10, the rounding of the
NaN-absorbing clamp). -/
theorem efficiency_rounded_clamp_bounds_witness :
    ((calculate_comprehensive_metrics (preprocess_data dfSingle) dfSingle).getD
        mSingle).efficiencyScore
      = PF.roundPF 1 (clampScore
          ((calculate_comprehensive_metrics (preprocess_data dfSingle) dfSingle).getD
            mSingle).variance
          ((calculate_comprehensive_metrics (preprocess_data dfSingle) dfSingle).getD
            mSingle).growthRate) ∧
    ∃ q : ℚ,
      ((calculate_comprehensive_metrics (preprocess_data dfSingle) dfSingle).getD
          mSingle).efficiencyScore = PF.fin q ∧ 0 ≤ q ∧ q ≤ 10 := by
  apply efficiency_rounded_clamp_bounds (preprocess_data dfSingle) dfSingle
  cases hE : calculate_comprehensive_metrics (preprocess_data dfSingle) dfSingle with
  | none =>
    have hsome : (calculate_comprehensive_metrics (preprocess_data dfSingle)
        dfSingle).isSome = true := by
      with_unfolding_all decide
    rw [hE] at hsome
    simp at hsome
  | some r => simp

/-- C3 counterexample: on totals [1000, 1001, 1002] the returned
efficiency score (10, after rounding to 1 decimal) differs from the
claim's unrounded clamp value 10 − 5/1001 − 1/50. -/
theorem efficiency_clamp_cex :
    (calculate_comprehensive_metrics (preprocess_data dfNearTen) dfNearTen).map
        Metrics.efficiencyScore ≠
      (calculate_comprehensive_metrics (preprocess_data dfNearTen) dfNearTen).map
        (fun ms => clampScore ms.variance ms.growthRate) := by
  with_unfolding_all decide

/-- C8: with at least 2 buckets and a nonzero first total, the Metrics
Calculator's growth rate is `(last - first)/first * 100`; with exactly one
bucket it is 0. -/
theorem growth_rate_formula (m : MonthlyDF) (df : List Tx) :
    (2 ≤ m.buckets.length → (m.buckets.map Bucket.total).headI ≠ 0 →
      (calculate_comprehensive_metrics m df).map Metrics.growthRate
        = some (PF.fin (((m.buckets.map Bucket.total).getLastD 0
            - (m.buckets.map Bucket.total).headI)
            / (m.buckets.map Bucket.total).headI * 100))) ∧
    (m.buckets.length = 1 →
      (calculate_comprehensive_metrics m df).map Metrics.growthRate = some (PF.fin 0)) := by
  constructor
  · intro h2 hne
    have hb : ¬ (m.buckets.isEmpty = true) := by
      rw [List.isEmpty_iff]
      intro hh
      rw [hh] at h2
      simp at h2
    unfold calculate_comprehensive_metrics
    rw [if_neg hb]
    dsimp only
    rw [if_pos (by omega)]
    simp only [PF.div, if_neg hne, PF.mul, Option.map_some']
  · intro h1
    have hb : ¬ (m.buckets.isEmpty = true) := by
      rw [List.isEmpty_iff]
      intro hh
      rw [hh] at h1
      simp at h1
    unfold calculate_comprehensive_metrics
    rw [if_neg hb]
    dsimp only
    rw [if_neg (by omega)]
    simp only [Option.map_some']

/-- C8 witness: Scenario A (totals 1000, 1200, 900) yields growth rate
(900 − 1000)/1000·100 = −10. -/
theorem growth_rate_formula_witness :
    (calculate_comprehensive_metrics (preprocess_data dfScenarioA) dfScenarioA).map
      Metrics.growthRate = some (PF.fin (-10)) := by
  have h := (growth_rate_formula (preprocess_data dfScenarioA) dfScenarioA).1
    (by with_unfolding_all decide) (by with_unfolding_all decide)
  rw [h]
  with_unfolding_all decide

/-- `isCent` unfolded: the value is an integer number of hundredths. -/
lemma isCent_iff {q : ℚ} : isCent q ↔ ∃ z : ℤ, q * 100 = (z : ℚ) := by
  unfold isCent
  constructor
  · intro h
    exact ⟨(q * 100).num, ((Rat.den_eq_one_iff _).mp h).symm⟩
  · rintro ⟨z, hz⟩
    rw [hz]
    exact Rat.den_intCast z

/-- Whole-cent values are closed under addition. -/
lemma isCent_add {a b : ℚ} (ha : isCent a) (hb : isCent b) : isCent (a + b) := by
  rw [isCent_iff] at *
  obtain ⟨x, hx⟩ := ha
  obtain ⟨y, hy⟩ := hb
  refine ⟨x + y, ?_⟩
  push_cast
  rw [add_mul, hx, hy]

/-- A sum of whole-cent values is a whole-cent value. -/
lemma isCent_sum : ∀ {l : List ℚ}, (∀ q ∈ l, isCent q) → isCent l.sum := by
  intro l
  induction l with
  | nil =>
    intro _
    rw [List.sum_nil, isCent_iff]
    exact ⟨0, by norm_num⟩
  | cons x xs ih =>
    intro h
    rw [List.sum_cons]
    exact isCent_add (h x (by simp)) (ih fun q hq => h q (by simp [hq]))

/-- Rounding to 2 decimals leaves a whole-cent value unchanged. -/
lemma roundTo_isCent {q : ℚ} (h : isCent q) : roundTo 2 q = q := by
  rw [isCent_iff] at h
  obtain ⟨z, hz⟩ := h
  unfold roundTo rhe
  rw [show ((10 : ℚ) ^ 2) = 100 by norm_num, hz]
  have h1 : (z : ℚ) - ⌊(z : ℚ)⌋ < 1/2 := by
    rw [Int.floor_intCast]
    norm_num
  rw [if_pos h1, Int.floor_intCast]
  rw [div_eq_iff (by norm_num : (100 : ℚ) ≠ 0)]
  exact hz.symm

/-- A transaction table's amount sum splits across any Boolean test. -/
lemma txSum_filter_split (p : Tx → Bool) :
    ∀ df : List Tx, txSum df = txSum (df.filter p) + txSum (df.filter fun t => ! p t) := by
  intro df
  induction df with
  | nil => simp [txSum]
  | cons t ts ih =>
    cases hp : p t <;>
      simp [txSum, List.filter_cons, hp] at ih ⊢ <;> linarith

/-- Summing the per-group amount sums over a duplicate-free key cover of a
table recovers the table's total — the `groupby` partition property. -/
lemma sum_groupAmounts : ∀ (ks : List ℕ) (df : List Tx), ks.Nodup →
    (∀ t ∈ df, perKey t ∈ ks) →
    (ks.map fun k => (groupAmounts df k).sum).sum = txSum df := by
  intro ks
  induction ks with
  | nil =>
    intro df _ hall
    have hdf : df = [] := by
      rw [List.eq_nil_iff_forall_not_mem]
      intro t ht
      simpa using hall t ht
    subst hdf
    simp [txSum]
  | cons k ks ih =>
    intro df hnd hall
    have hk : k ∉ ks := (List.nodup_cons.mp hnd).1
    have hnd' : ks.Nodup := (List.nodup_cons.mp hnd).2
    rw [List.map_cons, List.sum_cons]
    have hgroups : ∀ k' ∈ ks,
        groupAmounts df k' = groupAmounts (df.filter fun t => ! (perKey t = k : Bool)) k' := by
      intro k' hk'
      unfold groupAmounts
      rw [List.filter_filter]
      congr 1
      apply List.filter_congr
      intro t _
      by_cases ht : perKey t = k'
      · have hkk : ¬ (k' = k) := fun hh => hk (hh ▸ hk')
        have htk : ¬ perKey t = k := by rw [ht]; exact hkk
        simp [ht, htk, hkk]
      · simp [ht]
    have hmap : (ks.map fun k' => (groupAmounts df k').sum)
        = ks.map fun k' => (groupAmounts (df.filter fun t => ! (perKey t = k : Bool)) k').sum := by
      apply List.map_congr_left
      intro k' hk'
      rw [hgroups k' hk']
    rw [hmap, ih _ hnd' ?hcov]
    case hcov =>
      intro t ht
      rw [List.mem_filter] at ht
      have := hall t ht.1
      simp only [List.mem_cons] at this
      rcases this with h | h
      · exfalso
        revert ht
        simp [h]
      · exact h
    have hsplit := txSum_filter_split (fun t => (perKey t = k : Bool)) df
    have hgk : txSum (df.filter fun t => (perKey t = k : Bool)) = (groupAmounts df k).sum := by
      unfold txSum groupAmounts
      rfl
    linarith [hsplit, hgk]

/-- C4 (amended): the bucket totals are the per-month amount sums rounded
to 2 decimals, so the sum over all buckets equals the sum over all
transactions whenever every amount is a whole number of cents (and, more
generally, whenever no monthly sum is moved by the rounding). -/
theorem sum_conservation_cents (df : List Tx) (hc : ∀ t ∈ df, isCent t.amount) :
    totalSum (preprocess_data df) = txSum df := by
  have hmap : (preprocess_data df).buckets.map Bucket.total
      = (monthKeys df).map fun k => roundTo 2 (groupAmounts df k).sum := by
    show (List.zipWith (mkBucket df) (monthKeys df)
        (List.range' 1 (monthKeys df).length)).map Bucket.total = _
    exact zipWith_mkBucket_map df Bucket.total _ (fun k i => rfl) _ _ (by simp)
  unfold totalSum
  rw [hmap]
  have hr : ((monthKeys df).map fun k => roundTo 2 (groupAmounts df k).sum)
      = (monthKeys df).map fun k => (groupAmounts df k).sum := by
    apply List.map_congr_left
    intro k _
    apply roundTo_isCent
    apply isCent_sum
    intro q hq
    unfold groupAmounts at hq
    simp only [List.mem_map, List.mem_filter] at hq
    obtain ⟨t, ⟨ht, _⟩, rfl⟩ := hq
    exact hc t ht
  rw [hr]
  have hperm : ((monthKeys df).map fun k => (groupAmounts df k).sum).Perm
      (((df.map perKey).dedup).map fun k => (groupAmounts df k).sum) :=
    (List.perm_insertionSort _ _).map _
  rw [hperm.sum_eq]
  exact sum_groupAmounts _ df (List.nodup_dedup _) fun t ht => by
    simp only [List.mem_dedup, List.mem_map]
    exact ⟨t, ht, rfl⟩

/-- C4 witness: Scenario A's whole-cent amounts are conserved exactly. -/
theorem sum_conservation_cents_witness :
    totalSum (preprocess_data dfScenarioA) = txSum dfScenarioA :=
  sum_conservation_cents dfScenarioA (by with_unfolding_all decide)

/-- C4 counterexample: a single transaction of 0.125 refutes exact
conservation — its bucket total is rounded to 0.12 by `.round(2)`. -/
theorem sum_conservation_cex :
    totalSum (preprocess_data dfEighth) ≠ txSum dfEighth := by
  with_unfolding_all decide

/-- State characterization of the main-file seasonal function: untouched
below 6 buckets, otherwise only the `Month` column is added. -/
lemma seasonal_state_main (m : MonthlyDF) :
    (calculate_seasonal_trends m).2
      = if m.buckets.length < 6 then m
        else { m with monthCol := some (m.buckets.map fun b => monthOfKey b.yearMonth) } := by
  unfold calculate_seasonal_trends
  dsimp only
  split_ifs <;> rfl

/-- State characterization of the backend seasonal function: identical
frame behaviour to the main one. -/
lemma seasonal_state_backend (m : MonthlyDF) :
    (ForecastModel.calculate_seasonal_trends m).2
      = if m.buckets.length < 6 then m
        else { m with monthCol := some (m.buckets.map fun b => monthOfKey b.yearMonth) } := by
  unfold ForecastModel.calculate_seasonal_trends
  dsimp only
  split_ifs <;> rfl

/-- C9 (amended): `advanced_ml_analysis` really is frame-pure, and both
`calculate_seasonal_trends` variants never touch the bucket rows or the
growth columns and are fully pure below 6 buckets; at 6 or more buckets
each assigns the `Month` column (the calendar month of every bucket) on
the received dataframe in place. -/
theorem seasonal_frame_effects (m : MonthlyDF) (df : List Tx) (hh : Bool) :
    ((calculate_seasonal_trends m).2.buckets = m.buckets ∧
     (calculate_seasonal_trends m).2.yoy = m.yoy ∧
     (calculate_seasonal_trends m).2.mom = m.mom) ∧
    (m.buckets.length < 6 → (calculate_seasonal_trends m).2 = m) ∧
    (6 ≤ m.buckets.length → (calculate_seasonal_trends m).2.monthCol
        = some (m.buckets.map fun b => monthOfKey b.yearMonth)) ∧
    ((ForecastModel.calculate_seasonal_trends m).2.buckets = m.buckets ∧
     (ForecastModel.calculate_seasonal_trends m).2.yoy = m.yoy ∧
     (ForecastModel.calculate_seasonal_trends m).2.mom = m.mom) ∧
    (m.buckets.length < 6 → (ForecastModel.calculate_seasonal_trends m).2 = m) ∧
    (6 ≤ m.buckets.length → (ForecastModel.calculate_seasonal_trends m).2.monthCol
        = some (m.buckets.map fun b => monthOfKey b.yearMonth)) ∧
    (advanced_ml_analysis m df hh).2 = m := by
  rw [seasonal_state_main, seasonal_state_backend]
  by_cases h6 : m.buckets.length < 6
  · rw [if_pos h6]
    refine ⟨⟨rfl, rfl, rfl⟩, fun _ => rfl, fun hge => absurd hge (by omega),
      ⟨rfl, rfl, rfl⟩, fun _ => rfl, fun hge => absurd hge (by omega), rfl⟩
  · rw [if_neg h6]
    exact ⟨⟨rfl, rfl, rfl⟩, fun hlt => absurd hlt h6, fun _ => rfl,
      ⟨rfl, rfl, rfl⟩, fun hlt => absurd hlt h6, fun _ => rfl, rfl⟩

/-- C9 witness: on the 6-bucket table the seasonal function's output state
carries the added `Month` column, instantiating the amended claim. -/
theorem seasonal_frame_effects_witness :
    (calculate_seasonal_trends (preprocess_data dfSixMonths)).2.monthCol
      = some ((preprocess_data dfSixMonths).buckets.map fun b => monthOfKey b.yearMonth) := by
  exact (seasonal_frame_effects (preprocess_data dfSixMonths) dfSixMonths false).2.2.1
    (by with_unfolding_all decide)

/-- C9 counterexample: with 6 buckets, `calculate_seasonal_trends` does
not leave the monthly series it receives unchanged — the received
dataframe's `Month` column is set after the call, while the Aggregator's
output had none, so the state differs from the input. -/
theorem seasonal_mutates_cex :
    (calculate_seasonal_trends (preprocess_data dfSixMonths)).2.monthCol
      ≠ (preprocess_data dfSixMonths).monthCol := by
  with_unfolding_all decide

end SmartExpense
